import Mathlib

/-!
Shallow embedding of `src/quaternions/include/kinder/quaternions/QuaternionEigen.hpp`
(namespace `kinder::quaternions::eigen_implementation`).

Scalars (`PrimType_`, float/double in C++) are modelled by `ℝ`: the spec treats
floating-point rounding as out of scope and reasons in real arithmetic with an
explicit tolerance. `Eigen::Quaternion<PrimType_>` (the `Implementation` type)
is an external engine holding four coefficients; it is modelled by the same
four-component record, and its delegated operations (`norm`, `squaredNorm`,
`conjugate`, `inverse`, `normalized`, `setZero`, `Identity`) are embedded with
their documented Eigen semantics. The debug assertion macro
`KINDER_ASSERT_SCALAR_NEAR_DBG` lives in `kinder/common/assert_macros_eigen.hpp`,
which is not under `src/`; it is modelled from the spec (see `assertScalarNear`).
All checked construction paths are modelled as they behave in a checked (debug)
build, where the assertion is compiled in.
-/

namespace Kinder

/-- A 4-component vector `Eigen::Matrix<PrimType_,4,1>` (the `Vector4` typedef). -/
def Vector4 : Type := Fin 4 → ℝ

/-- A 3-component vector `Eigen::Matrix<PrimType_,3,1>` (the `Imaginary` typedef). -/
def Imaginary : Type := Fin 3 → ℝ

/-- `Quaternion<PrimType_>` (QuaternionEigen.hpp, lines 55-235): a free 4-tuple
`w + x*i + y*j + z*k` in the Hamiltonian convention, privately inheriting
`Eigen::Quaternion<PrimType_>`.  The four Eigen coefficients are the fields. -/
@[ext]
structure Quaternion where
  w : ℝ
  x : ℝ
  y : ℝ
  z : ℝ

namespace Quaternion

/-- Default constructor (line 70): all coefficients zero. -/
def zero : Quaternion := ⟨0, 0, 0, 0⟩

/-- Constructor from real part and imaginary 3-vector (line 78):
`Base(w, imag(0), imag(1), imag(2))`. -/
def ofRealImag (w : ℝ) (imag : Imaginary) : Quaternion :=
  ⟨w, imag 0, imag 1, imag 2⟩

/-- Constructor from a 4-vector (line 87):
`Base(vector4(0), vector4(1), vector4(2), vector4(3))`. -/
def ofVector4 (vector4 : Vector4) : Quaternion :=
  ⟨vector4 0, vector4 1, vector4 2, vector4 3⟩

/-- Eigen `squaredNorm()`: sum of squares of the four coefficients. -/
def normSq (q : Quaternion) : ℝ :=
  q.w ^ 2 + q.x ^ 2 + q.y ^ 2 + q.z ^ 2

/-- `norm()` (line 212), delegated to Eigen `norm()`: the Euclidean norm of the
four coefficients. -/
noncomputable def norm (q : Quaternion) : ℝ :=
  Real.sqrt q.normSq

/-- `conjugated()` (line 106), delegated to Eigen `conjugate()`: negates the
imaginary coefficients. -/
def conjugated (q : Quaternion) : Quaternion :=
  ⟨q.w, -q.x, -q.y, -q.z⟩

/-- `conjugate()` (line 112): assigns `Quaternion(Implementation::conjugate())`
to `*this` and returns it.  With value semantics, the state after the mutation. -/
def conjugate (q : Quaternion) : Quaternion :=
  q.conjugated

/-- `inverted()` (line 93), delegated to Eigen `inverse()`: for positive squared
norm, the conjugate with coefficients divided by the squared norm; for the zero
quaternion Eigen returns the zero quaternion. -/
noncomputable def inverted (q : Quaternion) : Quaternion :=
  if 0 < q.normSq then
    ⟨q.conjugated.w / q.normSq, q.conjugated.x / q.normSq,
     q.conjugated.y / q.normSq, q.conjugated.z / q.normSq⟩
  else
    ⟨0, 0, 0, 0⟩

/-- `invert()` (line 99): assigns `Quaternion(Implementation::inverse())` to
`*this` and returns it.  With value semantics, the state after the mutation. -/
noncomputable def invert (q : Quaternion) : Quaternion :=
  q.inverted

/-- `normalized()` (line 216), delegated to Eigen `normalized()`: coefficients
divided by the norm.  Degenerate at zero norm (the spec documents this as
undefined for the zero quaternion). -/
noncomputable def normalized (q : Quaternion) : Quaternion :=
  ⟨q.w / q.norm, q.x / q.norm, q.y / q.norm, q.z / q.norm⟩

/-- `setZero()` (line 225), delegated to Eigen `setZero()`: zeroes all four
coefficients and returns `*this`.  With value semantics, the state after. -/
def setZero (_q : Quaternion) : Quaternion :=
  ⟨0, 0, 0, 0⟩

/-- `getVector4()` (line 204): the 4-vector `[w; x; y; z]`. -/
def getVector4 (q : Quaternion) : Vector4 :=
  ![q.w, q.x, q.y, q.z]

/-- `getReal()` (line 196). -/
def getReal (q : Quaternion) : ℝ := q.w

/-- `getImaginary()` (line 200): the 3-vector `(x, y, z)`. -/
def getImaginary (q : Quaternion) : Imaginary :=
  ![q.x, q.y, q.z]

/-- Mutable accessor `w()` (line 180): stores a value into the `w` coefficient,
no other effect. -/
def setW (q : Quaternion) (v : ℝ) : Quaternion := ⟨v, q.x, q.y, q.z⟩

/-- Mutable accessor `x()` (line 184). -/
def setX (q : Quaternion) (v : ℝ) : Quaternion := ⟨q.w, v, q.y, q.z⟩

/-- Mutable accessor `y()` (line 188). -/
def setY (q : Quaternion) (v : ℝ) : Quaternion := ⟨q.w, q.x, v, q.z⟩

/-- Mutable accessor `z()` (line 192). -/
def setZ (q : Quaternion) (v : ℝ) : Quaternion := ⟨q.w, q.x, q.y, v⟩

/-- Modelled from the spec: quaternion multiplication is delegated to the shared
algebra mixin `QuaternionBase` (`kinder/quaternions/QuaternionBase.hpp`, not
under `src/`); the spec fixes the Hamiltonian convention
`i*i = j*j = k*k = ijk = -1`, which gives the Hamilton product. -/
def mul (p q : Quaternion) : Quaternion :=
  ⟨p.w * q.w - p.x * q.x - p.y * q.y - p.z * q.z,
   p.w * q.x + p.x * q.w + p.y * q.z - p.z * q.y,
   p.w * q.y - p.x * q.z + p.y * q.w + p.z * q.x,
   p.w * q.z + p.x * q.y - p.y * q.x + p.z * q.w⟩

/-- The identity quaternion `(1, 0, 0, 0)` (Eigen `Identity()`). -/
def one : Quaternion := ⟨1, 0, 0, 0⟩

end Quaternion

/-- The tolerance `1e-4` used by every unit-norm assertion in the source. -/
noncomputable def tolerance : ℝ := 1 / 10000

/-- The error raised by a failed unit-norm assertion: a runtime error carrying
the measured norm, the expected value and the tolerance. -/
structure InvariantViolation where
  measured : ℝ
  expected : ℝ
  tol : ℝ

/-- Modelled from the spec: `KINDER_ASSERT_SCALAR_NEAR_DBG(std::runtime_error,
value, expected, tolerance, msg)` (defined in
`kinder/common/assert_macros_eigen.hpp`, which is not under `src/`).  In a
checked (debug) build it raises an `InvariantViolation` exactly when
`|value - expected| > tolerance`, and otherwise does nothing. -/
noncomputable def assertScalarNear (value expected tol : ℝ) :
    Except InvariantViolation Unit :=
  if |value - expected| ≤ tol then .ok () else .error ⟨value, expected, tol⟩

/-- Whether a fallible operation raised. -/
def isError {ε α : Type} : Except ε α → Bool
  | .error _ => true
  | .ok _ => false

/-- The `UnitQuaternion` invariant as the assertion measures it:
`|norm - 1| ≤ 1e-4`. -/
noncomputable def invariantHolds (q : Quaternion) : Prop :=
  |q.norm - 1| ≤ tolerance

/-- `UnitQuaternion<PrimType_>` (QuaternionEigen.hpp, lines 253-440): holds one
`Quaternion<PrimType_>` member `unitQuternion_` (line 256, spelled as in the
source). The unit-norm invariant is dynamic (checked at construction in debug
builds), so the type itself carries no proof, exactly as in C++. -/
structure UnitQuaternion where
  unitQuternion_ : Quaternion

namespace UnitQuaternion

/-- Read accessor `w()` (line 355). -/
def w (u : UnitQuaternion) : ℝ := u.unitQuternion_.w

/-- Read accessor `x()` (line 359). -/
def x (u : UnitQuaternion) : ℝ := u.unitQuternion_.x

/-- Read accessor `y()` (line 363). -/
def y (u : UnitQuaternion) : ℝ := u.unitQuternion_.y

/-- Read accessor `z()` (line 367). -/
def z (u : UnitQuaternion) : ℝ := u.unitQuternion_.z

/-- `norm()` (line 427): delegates to the wrapped quaternion's norm. -/
noncomputable def norm (u : UnitQuaternion) : ℝ := u.unitQuternion_.norm

/-- Mutable accessor `w()` (line 371): writes through to the wrapped
quaternion's `w` coefficient; the source comment notes there is no assertion. -/
def setW (u : UnitQuaternion) (v : ℝ) : UnitQuaternion := ⟨u.unitQuternion_.setW v⟩

/-- Mutable accessor `x()` (line 375). -/
def setX (u : UnitQuaternion) (v : ℝ) : UnitQuaternion := ⟨u.unitQuternion_.setX v⟩

/-- Mutable accessor `y()` (line 379). -/
def setY (u : UnitQuaternion) (v : ℝ) : UnitQuaternion := ⟨u.unitQuternion_.setY v⟩

/-- Mutable accessor `z()` (line 383). -/
def setZ (u : UnitQuaternion) (v : ℝ) : UnitQuaternion := ⟨u.unitQuternion_.setZ v⟩

/-- The shared body of every checked construction path: initialize the member
`unitQuternion_` from the given coefficients, then run
`KINDER_ASSERT_SCALAR_NEAR_DBG(std::runtime_error, norm(), 1, 1e-4, ...)`;
the object is produced only when the assertion passes. -/
noncomputable def checkedWrap (q : Quaternion) :
    Except InvariantViolation UnitQuaternion :=
  match assertScalarNear q.norm 1 tolerance with
  | .ok _ => .ok ⟨q⟩
  | .error e => .error e

/-- Default constructor (line 269): `unitQuternion_(Implementation::Identity())`,
the identity quaternion `(1, 0, 0, 0)`.  No assertion in the source. -/
def identity : UnitQuaternion := ⟨⟨1, 0, 0, 0⟩⟩

/-- Constructor from four coefficients (line 280): member init `(w, x, y, z)`,
then the unit-norm assertion. -/
noncomputable def fromCoeffs (w x y z : ℝ) : Except InvariantViolation UnitQuaternion :=
  checkedWrap ⟨w, x, y, z⟩

/-- Constructor from real part and imaginary 3-vector (line 285): member init
`(w, imag)`, then the unit-norm assertion. -/
noncomputable def fromRealImag (w : ℝ) (imag : Imaginary) :
    Except InvariantViolation UnitQuaternion :=
  checkedWrap (Quaternion.ofRealImag w imag)

/-- Constructor from a 4-vector (line 290): member init
`(vector4(0), vector4(1), vector4(2), vector4(3))`, then the assertion. -/
noncomputable def fromVector4 (vector4 : Vector4) :
    Except InvariantViolation UnitQuaternion :=
  checkedWrap (Quaternion.ofVector4 vector4)

/-- Constructor from a general `Quaternion` (line 296): member init from
`other.toImplementation()` (the same four coefficients), then the assertion. -/
noncomputable def fromQuaternion (other : Quaternion) :
    Except InvariantViolation UnitQuaternion :=
  checkedWrap other

/-- Constructor from the native representation `Eigen::Quaternion` (line 305):
member init from `other` (the same four coefficients), then the assertion. -/
noncomputable def fromImplementation (other : Quaternion) :
    Except InvariantViolation UnitQuaternion :=
  checkedWrap other

/-- Same-type `operator=` (line 310): assigns the four components of `other`
through the mutable accessors and returns `*this`.  No assertion. -/
def assign (self other : UnitQuaternion) : UnitQuaternion :=
  (((self.setW other.w).setX other.x).setY other.y).setZ other.z

/-- Cross-scalar-type `operator()` from `UnitQuaternion<PrimType_In>`
(line 318): assigns `static_cast<PrimType_>` of each component of `other`
through the mutable accessors and returns `*this`.  No assertion.  The
`static_cast` is modelled by an arbitrary coefficient map `cast`. -/
def convertFromUnit (cast : ℝ → ℝ) (self other : UnitQuaternion) : UnitQuaternion :=
  (((self.setW (cast other.w)).setX (cast other.x)).setY (cast other.y)).setZ
    (cast other.z)

/-- Cross-scalar-type `operator()` from a general `Quaternion<PrimType_In>`
(line 328): assigns `static_cast<PrimType_>` of each component of `other`
through the mutable accessors, then runs the unit-norm assertion on the result
and returns `*this`. -/
noncomputable def convertFromQuaternion (cast : ℝ → ℝ) (self : UnitQuaternion)
    (other : Quaternion) : Except InvariantViolation UnitQuaternion :=
  let s := (((self.setW (cast other.w)).setX (cast other.x)).setY
    (cast other.y)).setZ (cast other.z)
  match assertScalarNear s.norm 1 tolerance with
  | .ok _ => .ok s
  | .error e => .error e

/-- `conjugated()` (line 407): `return UnitQuaternion(unitQuternion_.conjugated())`.
The argument is a `Quaternion<PrimType_>`, so this calls the checking
constructor from `Quaternion` (line 296) — in a checked build the unit-norm
assertion runs on the conjugated value. -/
noncomputable def conjugated (u : UnitQuaternion) :
    Except InvariantViolation UnitQuaternion :=
  fromQuaternion u.unitQuternion_.conjugated

/-- `conjugate()` (line 413): `unitQuternion_.conjugate()` mutates the wrapped
quaternion in place and returns `*this`.  No `UnitQuaternion` constructor is
involved, hence no assertion.  With value semantics, the state after. -/
def conjugate (u : UnitQuaternion) : UnitQuaternion :=
  ⟨u.unitQuternion_.conjugate⟩

/-- `toImplementation()` (lines 431-437): the wrapped native representation. -/
def toImplementation (u : UnitQuaternion) : Quaternion := u.unitQuternion_

end UnitQuaternion

namespace Quaternion

/-- `toUnitQuaternion()` (line 230):
`UnitQuaternion<PrimType_>(this->Base::normalized())` — normalizes through the
Eigen engine and wraps the result through the checking constructor from the
native representation (line 305). -/
noncomputable def toUnitQuaternion (q : Quaternion) :
    Except InvariantViolation UnitQuaternion :=
  UnitQuaternion.fromImplementation q.normalized

end Quaternion

/-! ### Support lemmas -/

theorem Quaternion.normSq_nonneg (q : Quaternion) : 0 ≤ q.normSq := by
  unfold Quaternion.normSq
  positivity

theorem Quaternion.norm_mk (w x y z : ℝ) :
    Quaternion.norm ⟨w, x, y, z⟩ = Real.sqrt (w ^ 2 + x ^ 2 + y ^ 2 + z ^ 2) := rfl

theorem Quaternion.normSq_conjugated (q : Quaternion) :
    q.conjugated.normSq = q.normSq := by
  simp [Quaternion.conjugated, Quaternion.normSq]

theorem Quaternion.norm_conjugated (q : Quaternion) :
    q.conjugated.norm = q.norm := by
  unfold Quaternion.norm
  rw [Quaternion.normSq_conjugated]

theorem Quaternion.norm_ne_zero_iff (q : Quaternion) :
    q.norm ≠ 0 ↔ q.normSq ≠ 0 := by
  unfold Quaternion.norm
  rw [not_iff_not, Real.sqrt_eq_zero']
  constructor
  · intro h
    exact le_antisymm h q.normSq_nonneg
  · intro h
    exact h.le

theorem Quaternion.normSq_normalized (q : Quaternion) (h : q.normSq ≠ 0) :
    q.normalized.normSq = 1 := by
  have hsq : q.norm ^ 2 = q.normSq := Real.sq_sqrt q.normSq_nonneg
  have hn : q.norm ≠ 0 := q.norm_ne_zero_iff.mpr h
  unfold Quaternion.normalized Quaternion.normSq
  field_simp
  rw [hsq]
  unfold Quaternion.normSq
  ring

theorem Quaternion.norm_normalized (q : Quaternion) (h : q.normSq ≠ 0) :
    q.normalized.norm = 1 := by
  unfold Quaternion.norm
  rw [Quaternion.normSq_normalized q h, Real.sqrt_one]

theorem tolerance_pos : 0 < tolerance := by
  unfold tolerance
  norm_num

theorem invariantHolds_of_norm_one {q : Quaternion} (h : q.norm = 1) :
    invariantHolds q := by
  unfold invariantHolds
  rw [h]
  simp [tolerance_pos.le]

theorem checkedWrap_isError (q : Quaternion) :
    isError (UnitQuaternion.checkedWrap q) = true ↔
    tolerance < |q.norm - 1| := by
  by_cases h : |q.norm - 1| ≤ tolerance
  · simp [UnitQuaternion.checkedWrap, assertScalarNear, h, isError, not_lt.mpr h]
  · simp [UnitQuaternion.checkedWrap, assertScalarNear, h, isError, not_le.mp h]

theorem checkedWrap_ok {q : Quaternion} (h : invariantHolds q) :
    UnitQuaternion.checkedWrap q = .ok ⟨q⟩ := by
  unfold invariantHolds at h
  simp [UnitQuaternion.checkedWrap, assertScalarNear, h]

theorem Quaternion.norm_unit_w : Quaternion.norm ⟨1, 0, 0, 0⟩ = 1 := by
  rw [Quaternion.norm_mk]
  norm_num

theorem Quaternion.norm_two_w : Quaternion.norm ⟨2, 0, 0, 0⟩ = 2 := by
  rw [Quaternion.norm_mk, show ((2 : ℝ) ^ 2 + 0 ^ 2 + 0 ^ 2 + 0 ^ 2) = 2 ^ 2 by norm_num,
    Real.sqrt_sq (by norm_num)]

/-- Each checked construction path runs on the same coefficients the assertion
then measures: the cross-scalar conversion from a plain quaternion, at a
value-preserving cast, coincides with the checking constructor. -/
theorem UnitQuaternion.convertFromQuaternion_id (t : UnitQuaternion) (q : Quaternion) :
    UnitQuaternion.convertFromQuaternion id t q = UnitQuaternion.fromQuaternion q := rfl

/-! ### Claim theorems -/

/-- Claim C1: every `UnitQuaternion` construction path that accepts raw numeric
input — four scalars, (scalar, 3-vector), 4-vector, native representation,
general `Quaternion`, and the cross-scalar `operator()` from a general
quaternion — raises `InvariantViolation` in a checked build if and only if the
norm of the input satisfies `|norm - 1| > 1e-4`; in particular
`UnitQuaternion(1,0,0,0)` succeeds and `UnitQuaternion(2,0,0,0)` raises. -/
theorem C1_construction_validation :
    (∀ w x y z : ℝ, isError (UnitQuaternion.fromCoeffs w x y z) = true ↔
        tolerance < |Quaternion.norm ⟨w, x, y, z⟩ - 1|)
    ∧ (∀ (w : ℝ) (imag : Imaginary),
        isError (UnitQuaternion.fromRealImag w imag) = true ↔
        tolerance < |(Quaternion.ofRealImag w imag).norm - 1|)
    ∧ (∀ vector4 : Vector4, isError (UnitQuaternion.fromVector4 vector4) = true ↔
        tolerance < |(Quaternion.ofVector4 vector4).norm - 1|)
    ∧ (∀ other : Quaternion, isError (UnitQuaternion.fromImplementation other) = true ↔
        tolerance < |other.norm - 1|)
    ∧ (∀ other : Quaternion, isError (UnitQuaternion.fromQuaternion other) = true ↔
        tolerance < |other.norm - 1|)
    ∧ (∀ (t : UnitQuaternion) (other : Quaternion),
        isError (UnitQuaternion.convertFromQuaternion id t other) = true ↔
        tolerance < |other.norm - 1|)
    ∧ UnitQuaternion.fromCoeffs 1 0 0 0 = .ok ⟨⟨1, 0, 0, 0⟩⟩
    ∧ isError (UnitQuaternion.fromCoeffs 2 0 0 0) = true := by
  refine ⟨fun w x y z => ?_, fun w imag => ?_, fun vector4 => ?_, fun other => ?_,
    fun other => ?_, fun t other => ?_, ?_, ?_⟩
  · exact checkedWrap_isError _
  · exact checkedWrap_isError _
  · exact checkedWrap_isError _
  · exact checkedWrap_isError _
  · exact checkedWrap_isError _
  · rw [UnitQuaternion.convertFromQuaternion_id]
    exact checkedWrap_isError _
  · exact checkedWrap_ok (invariantHolds_of_norm_one Quaternion.norm_unit_w)
  · rw [show UnitQuaternion.fromCoeffs 2 0 0 0 =
      UnitQuaternion.checkedWrap ⟨2, 0, 0, 0⟩ from rfl, checkedWrap_isError,
      Quaternion.norm_two_w]
    unfold tolerance
    norm_num

/-- Claim C7: the 4-vector interface uses the fixed component order
`(w, x, y, z)`: construction from a 4-vector reads the components in that
order, `getVector4()` writes them in that order, and the round trip is the
identity. -/
theorem C7_vector4_order :
    (∀ vector4 : Vector4,
        (Quaternion.ofVector4 vector4).w = vector4 0
        ∧ (Quaternion.ofVector4 vector4).x = vector4 1
        ∧ (Quaternion.ofVector4 vector4).y = vector4 2
        ∧ (Quaternion.ofVector4 vector4).z = vector4 3)
    ∧ (∀ q : Quaternion,
        q.getVector4 0 = q.w ∧ q.getVector4 1 = q.x
        ∧ q.getVector4 2 = q.y ∧ q.getVector4 3 = q.z)
    ∧ (∀ vector4 : Vector4, (Quaternion.ofVector4 vector4).getVector4 = vector4) := by
  refine ⟨fun vector4 => ⟨rfl, rfl, rfl, rfl⟩,
    fun q => ⟨rfl, rfl, rfl, rfl⟩, fun vector4 => ?_⟩
  funext i
  fin_cases i <;> rfl

/-- Claim C9: the default-constructed `UnitQuaternion` equals the identity
quaternion `(1, 0, 0, 0)`, has norm 1 — so it satisfies the unit-norm
invariant — and its construction is unconditional (it is a total value, with
no assertion in its definition). -/
theorem C9_default_identity :
    UnitQuaternion.identity.unitQuternion_ = Quaternion.one
    ∧ UnitQuaternion.identity.norm = 1
    ∧ invariantHolds UnitQuaternion.identity.unitQuternion_ := by
  refine ⟨rfl, Quaternion.norm_unit_w, ?_⟩
  exact invariantHolds_of_norm_one Quaternion.norm_unit_w

/-- Claim C10: `setZero()` mutates the quaternion so that all four components
become 0 — hence the norm afterwards is 0, the degenerate input for `invert`
and `normalize` — and (with value semantics) the mutated quaternion is the
returned state. -/
theorem C10_setZero :
    ∀ q : Quaternion,
      q.setZero = Quaternion.zero
      ∧ q.setZero.w = 0 ∧ q.setZero.x = 0 ∧ q.setZero.y = 0 ∧ q.setZero.z = 0
      ∧ q.setZero.norm = 0 := by
  intro q
  refine ⟨rfl, rfl, rfl, rfl, rfl, ?_⟩
  rw [show q.setZero = ⟨0, 0, 0, 0⟩ from rfl, Quaternion.norm_mk]
  norm_num

/-- Claim C4: writing a value through a non-const component accessor of a
`UnitQuaternion` stores it into that component and leaves the others unchanged;
the operation is total (it returns a plain `UnitQuaternion`, never an error),
even when the resulting quaternion violates `|norm - 1| ≤ 1e-4` — as the
concrete conjuncts show for `w := 5` on the identity. -/
theorem C4_mutable_accessors_unchecked :
    (∀ (u : UnitQuaternion) (v : ℝ),
        (u.setW v).unitQuternion_ = ⟨v, u.x, u.y, u.z⟩
        ∧ (u.setX v).unitQuternion_ = ⟨u.w, v, u.y, u.z⟩
        ∧ (u.setY v).unitQuternion_ = ⟨u.w, u.x, v, u.z⟩
        ∧ (u.setZ v).unitQuternion_ = ⟨u.w, u.x, u.y, v⟩)
    ∧ (UnitQuaternion.identity.setW 5).unitQuternion_ = ⟨5, 0, 0, 0⟩
    ∧ tolerance < |Quaternion.norm (UnitQuaternion.identity.setW 5).unitQuternion_ - 1| := by
  refine ⟨fun u v => ⟨rfl, rfl, rfl, rfl⟩, rfl, ?_⟩
  unfold tolerance
  rw [show (UnitQuaternion.identity.setW 5).unitQuternion_ = ⟨5, 0, 0, 0⟩ from rfl,
    Quaternion.norm_mk, show ((5 : ℝ) ^ 2 + 0 ^ 2 + 0 ^ 2 + 0 ^ 2) = 5 ^ 2 by norm_num,
    Real.sqrt_sq (by norm_num)]
  norm_num

/-- Claim C6: same-typed `UnitQuaternion` assignment (`operator=`) and the
cross-scalar conversion from a `UnitQuaternion<OtherScalar>` (`operator()`)
copy the four components (applying the scalar cast componentwise in the
cross-scalar case); both are total (return type `UnitQuaternion`, no error
path), and afterwards the target's components equal the (cast of the) source's
components. -/
theorem C6_assignment_copies_components :
    (∀ t s : UnitQuaternion,
        UnitQuaternion.assign t s = ⟨⟨s.w, s.x, s.y, s.z⟩⟩)
    ∧ (∀ (cast : ℝ → ℝ) (t s : UnitQuaternion),
        UnitQuaternion.convertFromUnit cast t s =
          ⟨⟨cast s.w, cast s.x, cast s.y, cast s.z⟩⟩) :=
  ⟨fun _ _ => rfl, fun _ _ _ => rfl⟩

/-- Claim C2: for every quaternion with nonzero norm, `toUnitQuaternion()`
returns the `UnitQuaternion` wrapping the normalized value and never raises an
`InvariantViolation`: normalization yields an exactly unit norm, within the
`1e-4` tolerance of the checking constructor. -/
theorem C2_toUnitQuaternion_never_raises (q : Quaternion) (h : q.norm ≠ 0) :
    q.toUnitQuaternion = .ok ⟨q.normalized⟩ := by
  unfold Quaternion.toUnitQuaternion UnitQuaternion.fromImplementation
  exact checkedWrap_ok (invariantHolds_of_norm_one
    (q.norm_normalized (q.norm_ne_zero_iff.mp h)))

/-- Witness for C2 at the quaternion `(3, 4, 0, 0)`, whose norm is `5 ≠ 0`. -/
theorem C2_witness :
    Quaternion.norm ⟨3, 4, 0, 0⟩ ≠ 0
    ∧ Quaternion.toUnitQuaternion ⟨3, 4, 0, 0⟩ =
        .ok ⟨Quaternion.normalized ⟨3, 4, 0, 0⟩⟩ := by
  have h : Quaternion.norm ⟨3, 4, 0, 0⟩ ≠ 0 := by
    rw [Quaternion.norm_mk, show ((3 : ℝ) ^ 2 + 4 ^ 2 + 0 ^ 2 + 0 ^ 2) = 5 ^ 2 by norm_num,
      Real.sqrt_sq (by norm_num)]
    norm_num
  exact ⟨h, C2_toUnitQuaternion_never_raises _ h⟩

/-- Counterexample to claim C3 as stated: `conjugated()` is implemented as
`UnitQuaternion(unitQuternion_.conjugated())`, which goes through the checking
constructor from `Quaternion` (line 296) — so an invariant check IS executed
and the operation CAN raise.  On the `UnitQuaternion` holding `(2, 0, 0, 0)`
(reachable through the unchecked mutable accessors), `conjugated()` raises. -/
theorem C3_conjugated_raises_counterexample :
    isError (UnitQuaternion.conjugated ⟨⟨2, 0, 0, 0⟩⟩) = true := by
  rw [show UnitQuaternion.conjugated ⟨⟨2, 0, 0, 0⟩⟩ =
    UnitQuaternion.checkedWrap ⟨2, -0, -0, -0⟩ from rfl, checkedWrap_isError,
    show (Quaternion.mk 2 (-0) (-0) (-0)) = ⟨2, 0, 0, 0⟩ by norm_num,
    Quaternion.norm_two_w]
  unfold tolerance
  norm_num

/-- Claim C3 (amended): the mutating `conjugate()` executes no invariant check
and never raises (it is a total function); `conjugated()` re-runs the
construction-time check on the conjugated value, but because conjugation
preserves the norm, it succeeds — without raising — on every `UnitQuaternion`
that satisfies the unit-norm invariant, returning the conjugate. -/
theorem C3_conjugation_validation (u : UnitQuaternion)
    (h : invariantHolds u.unitQuternion_) :
    u.conjugated = .ok ⟨u.unitQuternion_.conjugated⟩
    ∧ u.conjugate = ⟨u.unitQuternion_.conjugated⟩ := by
  refine ⟨?_, rfl⟩
  unfold UnitQuaternion.conjugated UnitQuaternion.fromQuaternion
  apply checkedWrap_ok
  unfold invariantHolds at h ⊢
  rwa [Quaternion.norm_conjugated]

/-- Witness for C3 at the identity unit quaternion, which satisfies the
invariant. -/
theorem C3_witness :
    invariantHolds (UnitQuaternion.mk ⟨1, 0, 0, 0⟩).unitQuternion_
    ∧ (UnitQuaternion.mk ⟨1, 0, 0, 0⟩).conjugated =
        .ok ⟨(Quaternion.mk 1 0 0 0).conjugated⟩
    ∧ (UnitQuaternion.mk ⟨1, 0, 0, 0⟩).conjugate = ⟨(Quaternion.mk 1 0 0 0).conjugated⟩ := by
  have h : invariantHolds (UnitQuaternion.mk ⟨1, 0, 0, 0⟩).unitQuternion_ :=
    invariantHolds_of_norm_one Quaternion.norm_unit_w
  have hc := C3_conjugation_validation _ h
  exact ⟨h, hc.1, hc.2⟩

/-- Claim C8: for every unit quaternion (norm exactly 1), conjugation negates
exactly the imaginary components and preserves the norm: the conjugated value
is `(w, -x, -y, -z)` with norm still 1, and `conjugated()` returns it. -/
theorem C8_conjugation_negates_imaginary (u : UnitQuaternion) (h : u.norm = 1) :
    u.unitQuternion_.conjugated = ⟨u.w, -u.x, -u.y, -u.z⟩
    ∧ u.unitQuternion_.conjugated.norm = 1
    ∧ u.conjugated = .ok ⟨u.unitQuternion_.conjugated⟩ := by
  refine ⟨rfl, ?_, ?_⟩
  · rw [Quaternion.norm_conjugated]
    exact h
  · unfold UnitQuaternion.conjugated UnitQuaternion.fromQuaternion
    apply checkedWrap_ok
    apply invariantHolds_of_norm_one
    rw [Quaternion.norm_conjugated]
    exact h

/-- Witness for C8 at `UnitQuaternion(0, 0, 0, 1)`: its norm is 1, and its
conjugate is `(0, 0, 0, -1)` with norm 1, as the spec's scenario states. -/
theorem C8_witness :
    UnitQuaternion.norm ⟨⟨0, 0, 0, 1⟩⟩ = 1
    ∧ (UnitQuaternion.mk ⟨0, 0, 0, 1⟩).conjugated =
        .ok ⟨(Quaternion.mk 0 0 0 1).conjugated⟩
    ∧ (Quaternion.mk 0 0 0 1).conjugated = ⟨0, 0, 0, -1⟩
    ∧ Quaternion.norm ⟨0, 0, 0, -1⟩ = 1 := by
  have h : UnitQuaternion.norm ⟨⟨0, 0, 0, 1⟩⟩ = 1 := by
    rw [show UnitQuaternion.norm ⟨⟨0, 0, 0, 1⟩⟩ =
      Quaternion.norm ⟨0, 0, 0, 1⟩ from rfl, Quaternion.norm_mk]
    norm_num
  have hconj : (Quaternion.mk 0 0 0 1).conjugated = ⟨0, 0, 0, -1⟩ := by
    simp [Quaternion.conjugated]
  have hc := C8_conjugation_negates_imaginary ⟨⟨0, 0, 0, 1⟩⟩ h
  refine ⟨h, hc.2.2, hconj, ?_⟩
  rw [← hconj, Quaternion.norm_conjugated]
  exact h

/-- Claim C5: for every quaternion with nonzero norm, `inverted()` returns the
algebraic inverse `conjugate(q) / ‖q‖²`, multiplying `q` by it gives the
identity quaternion, and `invert()` mutates to the same value.  (At zero norm
the source delegates to the engine's convention; no claim is made there.) -/
theorem C5_inverse (q : Quaternion) (h : q.norm ≠ 0) :
    q.inverted = ⟨q.w / q.normSq, (-q.x) / q.normSq,
      (-q.y) / q.normSq, (-q.z) / q.normSq⟩
    ∧ q.mul q.inverted = Quaternion.one
    ∧ q.invert = q.inverted := by
  have hsq : q.normSq ≠ 0 := q.norm_ne_zero_iff.mp h
  have hpos : 0 < q.normSq := lt_of_le_of_ne q.normSq_nonneg (Ne.symm hsq)
  have hinv : q.inverted = ⟨q.w / q.normSq, (-q.x) / q.normSq,
      (-q.y) / q.normSq, (-q.z) / q.normSq⟩ := by
    unfold Quaternion.inverted
    rw [if_pos hpos]
    rfl
  refine ⟨hinv, ?_, rfl⟩
  rw [hinv]
  have hn : q.normSq = q.w ^ 2 + q.x ^ 2 + q.y ^ 2 + q.z ^ 2 := rfl
  apply Quaternion.ext <;>
    simp only [Quaternion.mul, Quaternion.one] <;>
    field_simp <;> rw [hn] <;> ring

/-- Witness for C5 at the quaternion `(1, 1, 1, 1)`, whose norm is `2 ≠ 0`. -/
theorem C5_witness :
    Quaternion.norm ⟨1, 1, 1, 1⟩ ≠ 0
    ∧ Quaternion.inverted ⟨1, 1, 1, 1⟩ =
        ⟨(1 : ℝ) / Quaternion.normSq ⟨1, 1, 1, 1⟩,
         (-1) / Quaternion.normSq ⟨1, 1, 1, 1⟩,
         (-1) / Quaternion.normSq ⟨1, 1, 1, 1⟩,
         (-1) / Quaternion.normSq ⟨1, 1, 1, 1⟩⟩
    ∧ Quaternion.mul ⟨1, 1, 1, 1⟩ (Quaternion.inverted ⟨1, 1, 1, 1⟩) = Quaternion.one
    ∧ Quaternion.invert ⟨1, 1, 1, 1⟩ = Quaternion.inverted ⟨1, 1, 1, 1⟩ := by
  have h : Quaternion.norm ⟨1, 1, 1, 1⟩ ≠ 0 := by
    rw [Quaternion.norm_mk, show ((1 : ℝ) ^ 2 + 1 ^ 2 + 1 ^ 2 + 1 ^ 2) = 2 ^ 2 by norm_num,
      Real.sqrt_sq (by norm_num)]
    norm_num
  have hc := C5_inverse ⟨1, 1, 1, 1⟩ h
  exact ⟨h, hc.1, hc.2.1, hc.2.2⟩

end Kinder
